import Mathlib

/-!
# Verification model of the micro-bpf benchmark harness

Shallow embedding of the repository micro-bpf (files build.rs and src/lib.rs).
The driver runs N iterations; each iteration prepares a bytecode program for
either interpretation or JIT execution, runs it once, and streams one
semicolon separated measurement line. The embedding records the run as a list
of atomic events (prints, sleeps, construction and execution steps), from
which the textual output and its line structure are derived.
-/

namespace MicroBpf

/-- Models main of build.rs: reads the ITERATIONS variable from the build
environment and fails when it is absent, otherwise re-exports the value
verbatim to the compile environment (build.rs lines 2 to 4). -/
def buildScript (env : Option String) : Except String String :=
  match env with
  | none => Except.error "ITERATIONS not set"
  | some v => Except.ok v

/-- Reads a decimal digit string (characters 0 to 9, code points 48 to 57)
left to right, accumulating its value; fails at the first non digit. -/
def parseDigits : List Char → Nat → Option Nat
  | [], acc => some acc
  | c :: cs, acc =>
      if 48 ≤ c.toNat ∧ c.toNat ≤ 57 then
        parseDigits cs (acc * 10 + (c.toNat - 48))
      else none

/-- Models str.parse for usize on a 32 bit target, as applied to
ITERATIONS_STR in lib.rs line 62: a nonempty string of decimal digits whose
value fits in the machine word parses to that value; everything else fails.
(The Rust parser also accepts a leading plus sign, which never occurs in
this harness.) -/
def parseUsize (s : String) : Option Nat :=
  match s.data with
  | [] => none
  | l =>
    match parseDigits l 0 with
    | some n => if n < 2 ^ 32 then some n else none
    | none => none

/-- Observables of one iteration that come from outside the driver logic: the
two durations returned by micro_sec.time (in microseconds) and the result code
returned by the executed program (u64 in the interpreted path, u32 in the JIT
path; only its comparison with 1 matters to the driver). -/
structure IterObs where
  loadUs : Nat
  execUs : Nat
  code : Nat

/-- The memory context struct (lib.rs lines 37 to 43, feature libud): four
nested fixed length i64 arrays in a repr(C) record. -/
structure Context where
  a : Fin 20 → Fin 20 → Int
  b : Fin 20 → Int
  x : Fin 20 → Int
  y : Fin 100 → Int

/-- The context value built by each iteration (lib.rs lines 80 to 86): every
element of every field is initialized to zero. -/
def freshContext : Context where
  a := fun _ _ => 0
  b := fun _ => 0
  x := fun _ => 0
  y := fun _ => 0

/-- Dimensions of the array fields of Context in declaration order
(lib.rs lines 39 to 42): a is 20 by 20, b has 20 entries, x has 20 entries,
y has 100 entries. -/
def Context.arrayDims : List (List Nat) := [[20, 20], [20], [20], [100]]

/-- Byte size of Context under repr(C) with 8 byte i64 elements:
(20 * 20 + 20 + 20 + 100) * 8 = 4320. -/
def contextByteSize : Nat := (20 * 20 + 20 + 20 + 100) * 8

/-- Raw byte view of the fresh zero context (lib.rs lines 88 to 94): the
size_of Context bytes are all zero since every i64 element is zero. -/
def freshContextBytes : List Nat := List.replicate contextByteSize 0

/-- Arguments of the interpreted execution call
vm.execute_program(mem, mbuff, allowed_memory_regions) at lib.rs 152 to 153. -/
structure InterpCall where
  mem : List Nat
  mbuff : List Nat
  allowedRegions : List (Nat × Nat)
  deriving DecidableEq

/-- The call the interpreted path makes: mem is the context byte view under
the libud feature and the empty slice otherwise (lib.rs lines 88 to 97), the
mbuff argument is the literal empty slice, and allowed_memory_regions is a
fresh empty vector (lib.rs lines 150 to 153). -/
def interpCall (libud : Bool) : InterpCall where
  mem := if libud then freshContextBytes else []
  mbuff := []
  allowedRegions := []

/-- Arguments of the native call in the JIT path: two pointer and length
pairs, pointers modelled by their numeric value (0 is the null pointer). -/
structure JitCallArgs where
  mbuffPtr : Nat
  mbuffLen : Nat
  memPtr : Nat
  memLen : Nat
  deriving DecidableEq

/-- The argument tuple the JIT path passes to the compiled function pointer,
written literally as (0 as *mut u8, 0, 0 as *mut u8, 0) at lib.rs lines 166
to 168: null pointers and zero lengths, independent of the build
configuration. -/
def jitNullArgs : JitCallArgs := ⟨0, 0, 0, 0⟩

/-- Text printed for the boolean correctness flag, as produced by
res.to_string() in lib.rs line 176. -/
def boolStr (b : Bool) : String := if b then "true" else "false"

/-- Atomic actions of the benchmark driver in program order. printEv is a
print without trailing newline, printlnEv ends the current output line; the
remaining constructors record construction, compilation, sleeping and
execution steps so that claims about where these happen relative to the loop
and to the timed regions can be stated. -/
inductive Ev where
  | printEv (s : String)
  | printlnEv (s : String)
  | sleepEv (us : Nat)
  | newContext
  | newVm
  | registerHelpers
  | verifyProgram
  | buildHelpersMap
  | allocJitBuffer
  | jitCompile
  | execInterp (call : InterpCall)
  | execJit (args : JitCallArgs)
  deriving DecidableEq

/-- Body of the closure timed as load_program_us in the interpreted path
(lib.rs lines 101 to 109): construct the VM from the program bytes, register
all helpers into it, verify the loaded program. -/
def interpLoadTimedEvents : List Ev :=
  [Ev.newVm, Ev.registerHelpers, Ev.verifyProgram]

/-- Body of the closure timed as load_program_us in the JIT path (lib.rs
lines 111 to 137): build the helpers map from ALL_HELPERS, allocate the
aligned buffer, print, compile, print. -/
def jitLoadTimedEvents : List Ev :=
  [Ev.buildHelpersMap, Ev.allocJitBuffer, Ev.printlnEv "JIT compiling...",
   Ev.jitCompile, Ev.printlnEv "JIT compilation done."]

/-- Body of the closure timed as execution_time_us in the interpreted path
(lib.rs lines 147 to 156). -/
def interpExecTimedEvents (libud : Bool) : List Ev :=
  [Ev.execInterp (interpCall libud)]

/-- Body of the closure timed as execution_time_us in the JIT path (lib.rs
lines 159 to 171): print, sleep three seconds so pending output is flushed,
call the compiled code through the function pointer, print. The sleep and
both prints run inside the timed region. -/
def jitExecTimedEvents : List Ev :=
  [Ev.printlnEv "Executing JITted code", Ev.sleepEv 3000000,
   Ev.execJit jitNullArgs, Ev.printlnEv "JITted code execution done."]

/-- One iteration of the benchmark loop (lib.rs lines 71 to 177) under build
configuration (jit, libud), at index i with observables o. The final print
uses the format string with an explicit trailing newline (lib.rs line 176),
so it is modelled as a line ending print. -/
def iterEvents (jit libud : Bool) (i : Nat) (o : IterObs) : List Ev :=
  [Ev.printEv (toString i ++ ";"), Ev.printEv "0;"]
    ++ (if libud then [Ev.newContext] else [])
    ++ (if jit then jitLoadTimedEvents else interpLoadTimedEvents)
    ++ [Ev.printEv (toString o.loadUs ++ ";")]
    ++ (if jit then jitExecTimedEvents else interpExecTimedEvents libud)
    ++ [Ev.printEv (toString o.execUs ++ ";"),
        Ev.printlnEv (boolStr (o.code == 1))]

/-- The header line printed at lib.rs line 69. -/
def headerLine : String :=
  "iteration;init_runtime_us;load_program_us;execution_time_us;correct"

/-- The whole run after a successful parse of the iteration count (lib.rs
lines 64 to 179): initial serial ready sleep, begin marker, header line, the
benchmark loop, end marker. -/
def runEvents (jit libud : Bool) (n : Nat) (obs : Nat → IterObs) : List Ev :=
  [Ev.sleepEv 3000000, Ev.printlnEv "=== Benchmark Begins ===",
   Ev.printlnEv headerLine]
    ++ (List.range n).flatMap (fun i => iterEvents jit libud i (obs i))
    ++ [Ev.printlnEv "=== Benchmark End ==="]

/-- Models main (lib.rs lines 54 to 180): ITERATIONS_STR is parsed exactly
once at line 62; on failure the process aborts before any print or sleep, so
the event list is empty and the abort message is reported; on success the
benchmark runs to completion with the parsed count. -/
def mainRun (iterationsStr : String) (jit libud : Bool) (obs : Nat → IterObs) :
    List Ev × Option String :=
  match parseUsize iterationsStr with
  | none => ([], some "Failed to parse ITERATIONS")
  | some n => (runEvents jit libud n obs, none)

/-- The output chunk a single event contributes, if any: the printed text
together with a flag telling whether it ends the line. -/
def chunkOf : Ev → Option (String × Bool)
  | Ev.printEv s => some (s, false)
  | Ev.printlnEv s => some (s, true)
  | _ => none

/-- The stream of output chunks of an event list. -/
def outChunks (evs : List Ev) : List (String × Bool) := evs.filterMap chunkOf

/-- Splits a stream of output chunks into lines. Chunk text never contains an
interior newline in this program, so the line structure of the stream is
fully captured by the line ending flag. The accumulator holds the current
unterminated line; a final unterminated nonempty fragment counts as a last
line. -/
def linesAcc : List (String × Bool) → String → List String
  | [], acc => if acc = "" then [] else [acc]
  | (s, true) :: cs, acc => (acc ++ s) :: linesAcc cs ""
  | (s, false) :: cs, acc => linesAcc cs (acc ++ s)

/-- The lines of text a complete run prints. -/
def runLines (jit libud : Bool) (n : Nat) (obs : Nat → IterObs) : List String :=
  linesAcc (outChunks (runEvents jit libud n obs)) ""

/-- One measurement record as printed by lib.rs lines 72, 73, 141, 175 and
176: the five semicolon separated fields of a data line. -/
structure MeasurementRecord where
  iteration : Nat
  initRuntimeUs : Nat
  loadProgramUs : Nat
  executionTimeUs : Nat
  correct : Bool
  deriving DecidableEq

/-- The record of iteration i: the index, the constant 0 for the init runtime
field, the two measured durations, and the correctness flag res computed as
the result code being equal to 1 (lib.rs lines 143 to 168). -/
def record (i : Nat) (o : IterObs) : MeasurementRecord :=
  ⟨i, 0, o.loadUs, o.execUs, o.code == 1⟩

/-- The text of the data line carrying a measurement record. -/
def recordLine (r : MeasurementRecord) : String :=
  toString r.iteration ++ ";" ++ toString r.initRuntimeUs ++ ";" ++
    toString r.loadProgramUs ++ ";" ++ toString r.executionTimeUs ++ ";" ++
    boolStr r.correct

/-- The data line of iteration i in the interpreted configuration, as the
concatenation of the five prints of lib.rs lines 72, 73, 141, 175 and 176
minus the final newline. -/
def interpDataLine (i : Nat) (o : IterObs) : String :=
  toString i ++ ";" ++ "0;" ++ toString o.loadUs ++ ";" ++
    toString o.execUs ++ ";" ++ boolStr (o.code == 1)

/-- The five lines one JIT iteration prints: the diagnostic printlns inside
the two timed closures cut the record fields into three separate lines. -/
def jitIterLines (i : Nat) (o : IterObs) : List String :=
  [toString i ++ ";" ++ "0;" ++ "JIT compiling...",
   "JIT compilation done.",
   toString o.loadUs ++ ";" ++ "Executing JITted code",
   "JITted code execution done.",
   toString o.execUs ++ ";" ++ boolStr (o.code == 1)]

/-- Total duration of a list of events under a per event duration
assignment; the value micro_sec.time returns for a closure is the total
duration of the events the closure performs. -/
def elapsedUs (dur : Ev → Nat) (evs : List Ev) : Nat := (evs.map dur).sum

/-- Duration assignment in which only sleeps take time, each exactly its
requested duration. -/
def sleepOnlyDur : Ev → Nat
  | Ev.sleepEv us => us
  | _ => 0

/-! ## Structural lemmas about the printed output -/

theorem outChunks_iter_interp (libud : Bool) (i : Nat) (o : IterObs) :
    outChunks (iterEvents false libud i o) =
      [(toString i ++ ";", false), ("0;", false),
       (toString o.loadUs ++ ";", false), (toString o.execUs ++ ";", false),
       (boolStr (o.code == 1), true)] := by
  cases libud <;> rfl

theorem outChunks_iter_jit (libud : Bool) (i : Nat) (o : IterObs) :
    outChunks (iterEvents true libud i o) =
      [(toString i ++ ";", false), ("0;", false),
       ("JIT compiling...", true), ("JIT compilation done.", true),
       (toString o.loadUs ++ ";", false),
       ("Executing JITted code", true), ("JITted code execution done.", true),
       (toString o.execUs ++ ";", false),
       (boolStr (o.code == 1), true)] := by
  cases libud <;> rfl

theorem outChunks_append (l₁ l₂ : List Ev) :
    outChunks (l₁ ++ l₂) = outChunks l₁ ++ outChunks l₂ :=
  List.filterMap_append l₁ l₂ chunkOf

theorem linesAcc_interp_iters (libud : Bool) (obs : Nat → IterObs)
    (l : List Nat) (rest : List (String × Bool)) :
    linesAcc
      (outChunks (l.flatMap fun i => iterEvents false libud i (obs i)) ++ rest)
      "" = (l.map fun i => interpDataLine i (obs i)) ++ linesAcc rest "" := by
  induction l with
  | nil => simp [outChunks]
  | cons i l ih =>
      rw [List.flatMap_cons, outChunks_append, List.append_assoc,
        outChunks_iter_interp]
      simp only [List.cons_append, linesAcc, ih, List.map_cons]
      congr 1
      simp [interpDataLine, String.append_assoc, String.empty_append]

theorem interpDataLine_eq_recordLine (i : Nat) (o : IterObs) :
    interpDataLine i o = recordLine (record i o) := by
  simp [interpDataLine, recordLine, record, String.append_assoc,
    show toString (0 : Nat) = "0" from rfl]

theorem linesAcc_jit_iters (libud : Bool) (obs : Nat → IterObs)
    (l : List Nat) (rest : List (String × Bool)) :
    linesAcc
      (outChunks (l.flatMap fun i => iterEvents true libud i (obs i)) ++ rest)
      "" = (l.flatMap fun i => jitIterLines i (obs i)) ++ linesAcc rest "" := by
  induction l with
  | nil => simp [outChunks]
  | cons i l ih =>
      rw [List.flatMap_cons, outChunks_append, List.append_assoc,
        outChunks_iter_jit, List.flatMap_cons, List.append_assoc,
        show jitIterLines i (obs i) =
          [toString i ++ ";" ++ "0;" ++ "JIT compiling...",
           "JIT compilation done.",
           toString (obs i).loadUs ++ ";" ++ "Executing JITted code",
           "JITted code execution done.",
           toString (obs i).execUs ++ ";" ++ boolStr ((obs i).code == 1)]
          from rfl]
      simp only [List.cons_append, List.nil_append, linesAcc, ih]
      simp [String.append_assoc, String.empty_append]
      exact ih

theorem runLines_interp (libud : Bool) (n : Nat) (obs : Nat → IterObs) :
    runLines false libud n obs =
      "=== Benchmark Begins ===" :: headerLine ::
        (((List.range n).map fun i => interpDataLine i (obs i)) ++
          ["=== Benchmark End ==="]) := by
  simp only [runLines, runEvents, outChunks_append, List.append_assoc]
  rw [show outChunks [Ev.sleepEv 3000000,
        Ev.printlnEv "=== Benchmark Begins ===", Ev.printlnEv headerLine] =
      [("=== Benchmark Begins ===", true), (headerLine, true)] from rfl]
  simp only [List.cons_append, List.nil_append, List.append_nil, linesAcc]
  rw [show ([] : List (String × Bool)).append
        (outChunks ((List.range n).flatMap fun i =>
          iterEvents false libud i (obs i)) ++
          outChunks [Ev.printlnEv "=== Benchmark End ==="]) =
      outChunks ((List.range n).flatMap fun i =>
        iterEvents false libud i (obs i)) ++
        outChunks [Ev.printlnEv "=== Benchmark End ==="] from rfl]
  rw [linesAcc_interp_iters]
  simp [outChunks, linesAcc, String.empty_append]

theorem runLines_jit (libud : Bool) (n : Nat) (obs : Nat → IterObs) :
    runLines true libud n obs =
      "=== Benchmark Begins ===" :: headerLine ::
        (((List.range n).flatMap fun i => jitIterLines i (obs i)) ++
          ["=== Benchmark End ==="]) := by
  simp only [runLines, runEvents, outChunks_append, List.append_assoc]
  rw [show outChunks [Ev.sleepEv 3000000,
        Ev.printlnEv "=== Benchmark Begins ===", Ev.printlnEv headerLine] =
      [("=== Benchmark Begins ===", true), (headerLine, true)] from rfl]
  simp only [List.cons_append, List.nil_append, List.append_nil, linesAcc]
  rw [show ([] : List (String × Bool)).append
        (outChunks ((List.range n).flatMap fun i =>
          iterEvents true libud i (obs i)) ++
          outChunks [Ev.printlnEv "=== Benchmark End ==="]) =
      outChunks ((List.range n).flatMap fun i =>
        iterEvents true libud i (obs i)) ++
        outChunks [Ev.printlnEv "=== Benchmark End ==="] from rfl]
  rw [linesAcc_jit_iters]
  simp [outChunks, linesAcc, String.empty_append]

/-! ## Concrete observable values for counterexample and witness runs -/

/-- Concrete observables: load 7 us, execution 9 us, result code 1. -/
def obsA : Nat → IterObs := fun _ => ⟨7, 9, 1⟩

/-- Concrete observables: load 3 us, execution 4 us, result code 1. -/
def obsB : Nat → IterObs := fun _ => ⟨3, 4, 1⟩

/-- Concrete observables: load 5 us, execution 6 us, result code 1. -/
def obsC : Nat → IterObs := fun _ => ⟨5, 6, 1⟩

/-- Concrete observables: load 8 us, execution 2 us, result code 0. -/
def obsD : Nat → IterObs := fun _ => ⟨8, 2, 0⟩

/-- Concrete observables: load 1 us, execution 2 us, result code 1. -/
def obsW : Nat → IterObs := fun _ => ⟨1, 2, 1⟩

/-! ## Claims -/

/-- C1, counterexample. The claim asserts the byte for byte protocol (markers,
header, then pure data lines) in the compiled (JIT) configuration too. In the
JIT configuration with one iteration (load 7 us, execution 9 us, code 1) the
printed lines are not the claimed four: the diagnostic printlns of the JIT
path are interleaved and even break the data fields across lines. -/
theorem C1_counterexample :
    runLines true false 1 obsA ≠
      ["=== Benchmark Begins ===", headerLine, interpDataLine 0 (obsA 0),
       "=== Benchmark End ==="] := by
  decide

/-- C1, amended. In the interpreted configuration a complete run prints
exactly the begin marker, the header, one semicolon separated data line per
iteration with fields (index, 0, load us, execution us, boolean), and the end
marker, byte for byte. In the JIT configuration the same markers and header
are printed but each iteration contributes five lines: the diagnostics
JIT compiling..., JIT compilation done., Executing JITted code and JITted
code execution done. are interleaved and split the record fields across
three of those lines. -/
theorem C1_output_protocol (libud : Bool) (n : Nat) (obs : Nat → IterObs) :
    runLines false libud n obs =
      "=== Benchmark Begins ===" :: headerLine ::
        (((List.range n).map fun i => interpDataLine i (obs i)) ++
          ["=== Benchmark End ==="]) ∧
    runLines true libud n obs =
      "=== Benchmark Begins ===" :: headerLine ::
        (((List.range n).flatMap fun i => jitIterLines i (obs i)) ++
          ["=== Benchmark End ==="]) :=
  ⟨runLines_interp libud n obs, runLines_jit libud n obs⟩

/-- C2, counterexample. In the JIT configuration with one iteration (load
3 us, execution 4 us, code 1) the claim requires exactly one data line,
namely 0;0;3;4;true, but no printed line equals it: the data fields are
split across lines by the JIT diagnostics. -/
theorem C2_counterexample :
    (runLines true false 1 obsB).count (interpDataLine 0 (obsB 0)) = 0 ∧
    interpDataLine 0 (obsB 0) = "0;0;3;4;true" := by
  decide

/-- C2, amended. In the interpreted configuration a run of n iterations
prints n + 3 lines: the begin marker at position 0, the single header line at
position 1, the data line of iteration k at position k + 2 for every k < n
(so the iteration index fields are 0 to n - 1 in increasing order, each data
line starting with its index), and the end marker last. -/
theorem C2_header_and_data_lines (libud : Bool) (n : Nat)
    (obs : Nat → IterObs) :
    (runLines false libud n obs).length = n + 3 ∧
    (runLines false libud n obs)[0]? = some "=== Benchmark Begins ===" ∧
    (runLines false libud n obs)[1]? = some headerLine ∧
    (∀ k, k < n → (runLines false libud n obs)[k + 2]? =
      some (interpDataLine k (obs k))) ∧
    (∀ k, k < n → ∃ restStr,
      interpDataLine k (obs k) = toString k ++ restStr) := by
  rw [runLines_interp libud n obs]
  refine ⟨by simp, by simp, by simp, fun k hk => ?_, fun k hk => ?_⟩
  · rw [show ∀ a b (t : List String), (a :: b :: t)[k + 2]? = t[k]? from
      fun a b t => by simp]
    rw [List.getElem?_append_left (by simpa using hk), List.getElem?_map]
    simp [List.getElem?_range hk]
  · refine ⟨";0;" ++ (toString (obs k).loadUs ++ (";" ++
      (toString (obs k).execUs ++ (";" ++ boolStr ((obs k).code == 1))))), ?_⟩
    simp [interpDataLine, String.append_assoc]

/-- C2, witness: the amended theorem applied to the interpreted run with two
iterations, checking the data line of iteration 1 at line position 3. -/
theorem C2_header_and_data_lines_witness :
    (runLines false false 2 obsW)[1 + 2]? =
      some (interpDataLine 1 (obsW 1)) :=
  (C2_header_and_data_lines false 2 obsW).2.2.2.1 1 (by decide)

/-- C3, confirmed. The correctness flag of the measurement record of any
iteration is true exactly when the result code returned by the executed
program equals 1, and false for every other code; the data line prints
exactly this flag (lib.rs lines 143 to 176). -/
theorem C3_correct_iff_code_one (i : Nat) (o : IterObs) :
    ((record i o).correct = true ↔ o.code = 1) ∧
    ((record i o).correct = false ↔ o.code ≠ 1) ∧
    interpDataLine i o = recordLine (record i o) := by
  refine ⟨?_, ?_, interpDataLine_eq_recordLine i o⟩ <;>
    simp [record]

/-- C4, counterexample. The claim asserts that with no iteration count in the
build environment the benchmark runs with a default of 5 rather than failing;
in fact the build script fails fatally when the variable is absent (build.rs
line 3), so no binary with a default count ever exists. -/
theorem C4_counterexample :
    buildScript none = Except.error "ITERATIONS not set" := rfl

/-- C4, amended. When no iteration count is supplied via the build
environment the build script fails fatally (there is no default of 5); when
one is supplied it is passed through verbatim, parsed once into an unsigned
integer, and that value is the number of loop iterations of the run. -/
theorem C4_iterations_from_build_env :
    buildScript none = Except.error "ITERATIONS not set" ∧
    (∀ v, buildScript (some v) = Except.ok v) ∧
    ∀ s n jit libud obs, parseUsize s = some n →
      mainRun s jit libud obs = (runEvents jit libud n obs, none) :=
  ⟨rfl, fun _ => rfl, fun s n jit libud obs h => by simp [mainRun, h]⟩

/-- C4, witness: the amended theorem applied to the iteration string 5, which
parses to 5 and yields the five iteration run. -/
theorem C4_iterations_from_build_env_witness :
    mainRun "5" false false obsW = (runEvents false false 5 obsW, none) :=
  C4_iterations_from_build_env.2.2 "5" 5 false false obsW (by decide)

/-- Helper: the only execJit event an iteration can contain carries the
literal null argument tuple of lib.rs line 167. -/
theorem execJit_mem_iter (jit libud : Bool) (i : Nat) (o : IterObs)
    (args : JitCallArgs) (h : Ev.execJit args ∈ iterEvents jit libud i o) :
    args = jitNullArgs := by
  cases jit <;> cases libud <;>
    simp [iterEvents, jitLoadTimedEvents, interpLoadTimedEvents,
      jitExecTimedEvents, interpExecTimedEvents] at h <;>
    exact h

/-- C5, counterexample. The claim asserts that when a memory context is
configured the native function pointer receives pointer and length pairs
derived from it. With the context feature enabled (libud true, context of
4320 bytes) the JIT run still performs the native call with null pointers
and zero lengths. -/
theorem C5_counterexample :
    Ev.execJit jitNullArgs ∈ runEvents true true 1 obsC ∧
    jitNullArgs.memPtr = 0 ∧ jitNullArgs.memLen = 0 ∧
    contextByteSize = 4320 := by
  refine ⟨?_, rfl, rfl, rfl⟩
  decide

/-- C5, amended. In the compiled (JIT) path the native function pointer is
always invoked with null pointers and zero lengths for both argument pairs,
regardless of whether a memory context is configured: every execJit event of
every run carries the literal tuple (0, 0, 0, 0) of lib.rs line 167. -/
theorem C5_jit_call_always_null (jit libud : Bool) (n : Nat)
    (obs : Nat → IterObs) (args : JitCallArgs)
    (h : Ev.execJit args ∈ runEvents jit libud n obs) :
    args = jitNullArgs := by
  simp only [runEvents, List.mem_append, List.mem_flatMap] at h
  rcases h with (h | ⟨i, _, h⟩) | h
  · simp at h
  · exact execJit_mem_iter jit libud i (obs i) args h
  · simp at h

/-- C5, witness: the amended theorem applied to the one iteration JIT run
with the context feature enabled. -/
theorem C5_jit_call_always_null_witness :
    Ev.execJit jitNullArgs ∈ runEvents true true 1 obsW ∧
    jitNullArgs = jitNullArgs :=
  ⟨by decide, C5_jit_call_always_null true true 1 obsW jitNullArgs (by decide)⟩

/-- C6, counterexample. The claim describes the memory context as composed of
three nested fixed length integer arrays; the Context struct of lib.rs lines
38 to 43 has four array fields (a, b, x, y). -/
theorem C6_counterexample : Context.arrayDims.length ≠ 3 := by decide

/-- C6, amended. The memory context is a fixed size record of four nested
fixed length i64 arrays (20 by 20, 20, 20 and 100 elements), total 4320
bytes; the context built by an iteration has every numeric element equal to
zero, and under the libud feature every iteration of either configuration
constructs its own context. -/
theorem C6_context_zero_arrays :
    Context.arrayDims.length = 4 ∧
    contextByteSize = 4320 ∧
    (∀ i j, freshContext.a i j = 0) ∧
    (∀ i, freshContext.b i = 0) ∧
    (∀ i, freshContext.x i = 0) ∧
    (∀ i, freshContext.y i = 0) ∧
    ∀ jit i o, Ev.newContext ∈ iterEvents jit true i o := by
  refine ⟨rfl, rfl, fun i j => rfl, fun i => rfl, fun i => rfl, fun i => rfl,
    fun jit i o => ?_⟩
  cases jit <;>
    simp [iterEvents, jitLoadTimedEvents, interpLoadTimedEvents,
      jitExecTimedEvents, interpExecTimedEvents]

/-- C7, code bug. The claim (and section 4.5 of the design) places the output
flush sleep before execution timing starts, so that execution_time_us covers
only the native call. In lib.rs lines 145 to 173 the three second sleep, and
two diagnostic printlns, are inside the closure passed to micro_sec.time, so
the recorded execution duration includes them: the sleep event is a member of
the timed region, any duration assignment charges the recorded time with the
full sleep, and with a zero cost native call the recorded duration is still
3000000 us. -/
theorem C7_sleep_inside_timed_exec :
    Ev.sleepEv 3000000 ∈ jitExecTimedEvents ∧
    (∀ dur : Ev → Nat,
      dur (Ev.sleepEv 3000000) ≤ elapsedUs dur jitExecTimedEvents) ∧
    elapsedUs sleepOnlyDur jitExecTimedEvents = 3000000 ∧
    sleepOnlyDur (Ev.execJit jitNullArgs) = 0 := by
  refine ⟨by decide, fun dur => ?_, by decide, rfl⟩
  simp only [elapsedUs, jitExecTimedEvents, List.map_cons, List.map_nil,
    List.sum_cons, List.sum_nil]
  omega

/-- C8, counterexample. The claim asserts the helper table is built exactly
once, before any iteration. In a two iteration run the helper mapping is
constructed twice: the JIT configuration builds its helpers BTreeMap inside
the loop (lib.rs lines 117 to 120) and the interpreted configuration calls
register_all on the fresh VM inside the loop (lib.rs line 107). -/
theorem C8_counterexample :
    (runEvents true false 2 obsD).count Ev.buildHelpersMap = 2 ∧
    (runEvents false false 2 obsD).count Ev.registerHelpers = 2 := by
  decide

/-- Helper: each JIT iteration builds the helpers map exactly once. -/
theorem iter_count_helpers_jit (libud : Bool) (i : Nat) (o : IterObs) :
    (iterEvents true libud i o).count Ev.buildHelpersMap = 1 := by
  cases libud <;> rfl

/-- Helper: each interpreted iteration registers the helpers exactly once. -/
theorem iter_count_helpers_interp (libud : Bool) (i : Nat) (o : IterObs) :
    (iterEvents false libud i o).count Ev.registerHelpers = 1 := by
  cases libud <;> rfl

/-- Helper: counting an event across the loop body sums the per iteration
counts. -/
theorem count_flatMap_iters (jit libud : Bool) (obs : Nat → IterObs) (e : Ev)
    (c : Nat) (l : List Nat)
    (h : ∀ i o, (iterEvents jit libud i o).count e = c) :
    ((l.flatMap fun i => iterEvents jit libud i (obs i)).count e) =
      c * l.length := by
  induction l with
  | nil => simp
  | cons i l ih =>
      rw [List.flatMap_cons, List.count_append, h, ih, List.length_cons]
      ring

/-- C8, amended. The helper identifier to callback mapping is not built
before the loop: it is constructed inside the per iteration loop, exactly
once per iteration — the JIT path builds a fresh BTreeMap from the static
helper list each iteration and the interpreted path registers all helpers
into the freshly constructed VM each iteration. A run of n iterations
performs the construction n times, and none of it happens outside the loop
body. -/
theorem C8_helper_map_built_each_iteration (libud : Bool) (n : Nat)
    (obs : Nat → IterObs) :
    (runEvents true libud n obs).count Ev.buildHelpersMap = n ∧
    (runEvents false libud n obs).count Ev.registerHelpers = n ∧
    (∀ i o, (iterEvents true libud i o).count Ev.buildHelpersMap = 1) ∧
    (∀ i o, (iterEvents false libud i o).count Ev.registerHelpers = 1) := by
  refine ⟨?_, ?_, iter_count_helpers_jit libud, iter_count_helpers_interp libud⟩
  · simp only [runEvents, List.count_append,
      count_flatMap_iters true libud obs Ev.buildHelpersMap 1 (List.range n)
        (iter_count_helpers_jit libud)]
    simp [List.count_cons, List.count_nil]
  · simp only [runEvents, List.count_append,
      count_flatMap_iters false libud obs Ev.registerHelpers 1 (List.range n)
        (iter_count_helpers_interp libud)]
    simp [List.count_cons, List.count_nil]

/-- Helper: the only execInterp event an iteration can contain carries the
call of lib.rs lines 150 to 153: the configured memory, an empty secondary
buffer, and an empty allowed regions vector. -/
theorem execInterp_mem_iter (jit libud : Bool) (i : Nat) (o : IterObs)
    (call : InterpCall) (h : Ev.execInterp call ∈ iterEvents jit libud i o) :
    call = interpCall libud := by
  cases jit <;> cases libud <;>
    simp [iterEvents, jitLoadTimedEvents, interpLoadTimedEvents,
      jitExecTimedEvents, interpExecTimedEvents] at h <;>
    exact h

/-- C9, confirmed. Every interpreted execution in any run invokes the VM with
the memory context bytes as primary data region when the context feature is
on (and the empty region otherwise), an empty secondary buffer, and an empty
list of additionally permitted memory regions; no extra regions are ever
granted. -/
theorem C9_interp_call_empty_regions (jit libud : Bool) (n : Nat)
    (obs : Nat → IterObs) (call : InterpCall)
    (h : Ev.execInterp call ∈ runEvents jit libud n obs) :
    call.mbuff = [] ∧ call.allowedRegions = [] ∧
    call.mem = (if libud then freshContextBytes else []) := by
  have hc : call = interpCall libud := by
    simp only [runEvents, List.mem_append, List.mem_flatMap] at h
    rcases h with (h | ⟨i, _, h⟩) | h
    · simp at h
    · exact execInterp_mem_iter jit libud i (obs i) call h
    · simp at h
  subst hc
  exact ⟨rfl, rfl, rfl⟩

/-- C9, witness: the theorem applied to the one iteration interpreted run
with the context feature enabled. -/
theorem C9_interp_call_empty_regions_witness :
    (interpCall true).mbuff = [] ∧ (interpCall true).allowedRegions = [] ∧
    (interpCall true).mem = (if true then freshContextBytes else []) :=
  C9_interp_call_empty_regions false true 1 obsW (interpCall true) (by
    simp [runEvents, iterEvents, interpLoadTimedEvents,
      interpExecTimedEvents])

/-- C10, confirmed. When the ITERATIONS build environment value is absent the
build script step fails fatally (build.rs line 3), and when the embedded
string does not parse as an unsigned integer the process aborts at lib.rs
line 62, before any benchmark output: the event list of such a run is empty,
so the benchmark loop never runs. -/
theorem C10_fatal_before_output :
    buildScript none = Except.error "ITERATIONS not set" ∧
    ∀ s jit libud obs, parseUsize s = none →
      mainRun s jit libud obs = ([], some "Failed to parse ITERATIONS") :=
  ⟨rfl, fun s jit libud obs h => by simp [mainRun, h]⟩

/-- C10, witness: the theorem applied to a non numeric iterations string. -/
theorem C10_fatal_before_output_witness :
    mainRun "abc" false false obsW = ([], some "Failed to parse ITERATIONS") :=
  C10_fatal_before_output.2 "abc" false false obsW (by decide)

end MicroBpf
